import Mathlib

/-!
Verification of the orchestration logic of the Auto3DSeg HPO-with-NNI tutorial
notebook (src/auto3dseg/notebooks/hpo_nni.ipynb).

The notebook is a linear script.  Its own logic, embedded shallowly below, is:

* dataset provisioning guarded by a path-existence check (cell 6);
* a data-statistics step guarded by a cache-file-existence check (cell 12);
* recovery of the algorithm generation history with an on-disk fallback
  (cell 14, try/except around get_history plus a non-emptiness assert);
* positional selection of one algorithm from the history (cell 14);
* the hyper-parameter override calculator (cell 15), Python integer/float
  arithmetic modelled with exact rationals and explicit fallible division;
* assembly of the NNI HPO configuration document and its YAML
  serialization (cell 18).

Python semantics conventions used throughout:
* Python float division is modelled as exact rational division that fails
  (raises ZeroDivisionError) on a zero divisor: pyDiv.
* Python int() truncates toward zero: pyInt.
* Python dicts preserve insertion order; a dict is modelled as an
  association list, list(d.keys()) as the list of first components.
* A computation that can raise is modelled in Except Unit.
-/

namespace HpoNni

/-- Python float division a / b: raises ZeroDivisionError when b = 0,
otherwise exact. -/
def pyDiv (a b : ℚ) : Except Unit ℚ :=
  if b = 0 then Except.error () else Except.ok (a / b)

/-- Python int() applied to a real (here rational) value truncates toward
zero. -/
def pyInt (q : ℚ) : ℤ :=
  if 0 ≤ q then ⌊q⌋ else ⌈q⌉

/-- The override mapping built in cell 15 of the notebook, field names and
order as in the source dict literal. -/
structure OverrideParam where
  num_iterations : ℤ
  num_iterations_per_validation : ℤ
  num_images_per_batch : ℕ
  num_epochs : ℕ
  num_warmup_iterations : ℤ
  deriving DecidableEq

/-- Cell 15 of the notebook, with the four scalar inputs abstracted:

  max_epochs = max(max_epochs, 2)
  num_epoch = max_epochs
  n_iter = int(num_epoch * n_data / num_images_per_batch / num_gpus)
  n_iter_val = int(n_iter / 2)
  override_param = dict(num_iterations, num_iterations_per_validation,
                        num_images_per_batch, num_epochs,
                        num_warmup_iterations)
-/
def override_param (max_epochs num_images_per_batch n_data num_gpus : ℕ) :
    Except Unit OverrideParam := do
  let num_epoch := max max_epochs 2
  let t1 ← pyDiv ((num_epoch : ℚ) * (n_data : ℚ)) (num_images_per_batch : ℚ)
  let t2 ← pyDiv t1 (num_gpus : ℚ)
  let n_iter := pyInt t2
  let t3 ← pyDiv (n_iter : ℚ) 2
  let n_iter_val := pyInt t3
  Except.ok
    { num_iterations := n_iter
      num_iterations_per_validation := n_iter_val
      num_images_per_batch := num_images_per_batch
      num_epochs := num_epoch
      num_warmup_iterations := n_iter_val }

/-- Cell 15, line
  num_gpus = 1 if "multigpu" in input_cfg and not input_cfg["multigpu"]
             else torch.cuda.device_count()
The optional boolean config entry is an Option Bool; device_count is the
detected accelerator count. -/
def num_gpus (multigpu : Option Bool) (device_count : ℕ) : ℕ :=
  if multigpu = some false then 1 else device_count

theorem pyInt_of_nonneg {q : ℚ} (h : 0 ≤ q) : pyInt q = ⌊q⌋ := by
  simp [pyInt, h]

theorem override_param_eval (max_epochs num_images_per_batch n_data num_gpus : ℕ)
    (hb : 0 < num_images_per_batch) (hg : 0 < num_gpus) :
    override_param max_epochs num_images_per_batch n_data num_gpus =
      Except.ok
        { num_iterations :=
            ⌊(((max max_epochs 2 : ℕ) : ℚ) * (n_data : ℚ)) / (num_images_per_batch : ℚ) /
                (num_gpus : ℚ)⌋
          num_iterations_per_validation :=
            ⌊((⌊(((max max_epochs 2 : ℕ) : ℚ) * (n_data : ℚ)) / (num_images_per_batch : ℚ) /
                (num_gpus : ℚ)⌋ : ℚ)) / 2⌋
          num_images_per_batch := num_images_per_batch
          num_epochs := max max_epochs 2
          num_warmup_iterations :=
            ⌊((⌊(((max max_epochs 2 : ℕ) : ℚ) * (n_data : ℚ)) / (num_images_per_batch : ℚ) /
                (num_gpus : ℚ)⌋ : ℚ)) / 2⌋ } := by
  have hb' : (num_images_per_batch : ℚ) ≠ 0 := by
    exact_mod_cast hb.ne'
  have hg' : (num_gpus : ℚ) ≠ 0 := by
    exact_mod_cast hg.ne'
  have h2 : (2 : ℚ) ≠ 0 := by norm_num
  have hq0 : (0 : ℚ) ≤ (((max max_epochs 2 : ℕ) : ℚ) * (n_data : ℚ)) /
      (num_images_per_batch : ℚ) / (num_gpus : ℚ) := by positivity
  have hfl : (0 : ℤ) ≤ ⌊(((max max_epochs 2 : ℕ) : ℚ) * (n_data : ℚ)) /
      (num_images_per_batch : ℚ) / (num_gpus : ℚ)⌋ := Int.floor_nonneg.mpr hq0
  have hq1 : (0 : ℚ) ≤ ((⌊(((max max_epochs 2 : ℕ) : ℚ) * (n_data : ℚ)) /
      (num_images_per_batch : ℚ) / (num_gpus : ℚ)⌋ : ℚ)) / 2 := by
    have : (0 : ℚ) ≤ (⌊(((max max_epochs 2 : ℕ) : ℚ) * (n_data : ℚ)) /
        (num_images_per_batch : ℚ) / (num_gpus : ℚ)⌋ : ℚ) := by exact_mod_cast hfl
    positivity
  simp only [override_param, pyDiv, if_neg hb', if_neg hg', if_neg h2,
    Except.bind, bind, pyInt_of_nonneg hq0, pyInt_of_nonneg hq1]

/-- A Python dict mapping algorithm names to algorithm handles, as an
insertion-ordered association list. -/
abbrev AlgoDict (α : Type) := List (String × α)

/-- The generation history: an ordered sequence of name-to-handle dicts,
one per generated candidate (cells 12 and 14). -/
abbrev AlgoHistory (α : Type) := List (AlgoDict α)

/-- list(d.keys()) for an insertion-ordered dict. -/
def dictKeys {α : Type} (d : AlgoDict α) : List String :=
  d.map Prod.fst

/-- d[k] for an insertion-ordered dict: the value at the first matching key,
none when the key is absent (KeyError). -/
def dictGet {α : Type} (d : AlgoDict α) (k : String) : Option α :=
  (d.find? (fun kv => kv.1 == k)).map Prod.snd

/-- Cell 14 of the notebook:

  algo_dict = history[selected_algorithm_index]
  algo_name = list(algo_dict.keys())[selected_algorithm_index]
  algo = algo_dict[algo_name]

A none result models an uncaught IndexError (or KeyError) aborting the run. -/
def select_algo {α : Type} (history : AlgoHistory α) (selected_algorithm_index : ℕ) :
    Option (String × α) := do
  let algo_dict ← history.get? selected_algorithm_index
  let algo_name ← (dictKeys algo_dict).get? selected_algorithm_index
  let algo ← dictGet algo_dict algo_name
  pure (algo_name, algo)

/-- The try block of cell 14:

  history = bundle_generator.get_history()
  assert len(history) > 0

The primary source (get_history) may itself raise; the assert raises
AssertionError when the history is empty. -/
def get_history_checked {α : Type} (primary : Except Unit (AlgoHistory α)) :
    Except Unit (AlgoHistory α) := do
  let history ← primary
  if history.length > 0 then pure history else Except.error ()

/-- Cell 14's try/except: on any exception from the try block fall back to
import_bundle_algo_history, i.e. to the history re-read from the working
directory on disk. -/
def resolve_history {α : Type} (primary : Except Unit (AlgoHistory α))
    (disk : AlgoHistory α) : AlgoHistory α :=
  match get_history_checked primary with
  | Except.ok history => history
  | Except.error _ => disk

/-- The single observable effect of cell 12's guarded statistics step. -/
inductive StatsAction where
  | runAnalyzer
  deriving DecidableEq

/-- Cell 12 of the notebook:

  if not os.path.exists(datastats_file):
      da = DataAnalyzer(datalist_file, dataroot, output_path=datastats_file)
      da.get_all_case_stats()

modelled as the list of analyzer invocations performed, as a function of the
sole condition the code checks: existence of the cache file. -/
def data_statistics_step (datastats_file_exists : Bool) : List StatsAction :=
  if !datastats_file_exists then [StatsAction.runAnalyzer] else []

/-- The single observable effect of cell 6's guarded provisioning step. -/
inductive ProvisionAction where
  | downloadAndExtract
  deriving DecidableEq

/-- Cell 6 of the notebook:

  if not os.path.exists(dataroot):
      download_and_extract(resource, compressed_file, root_dir)

modelled as the list of network/filesystem actions performed, as a function of
the sole condition the code checks: existence of the expected local path. -/
def dataset_provisioning (dataroot_exists : Bool) : List ProvisionAction :=
  if !dataroot_exists then [ProvisionAction.downloadAndExtract] else []

/-- The YAML value universe the notebook's config documents live in: strings,
integers, floats (exact rationals), booleans, null, sequences and
insertion-ordered mappings with string keys. -/
inductive Yaml where
  | ystr (s : String)
  | yint (n : ℤ)
  | ynum (q : ℚ)
  | ybool (b : Bool)
  | ynull
  | yarr (xs : List Yaml)
  | ymap (kvs : List (String × Yaml))

/-- d[k] on a YAML mapping node; none on a non-mapping or absent key. -/
def yamlGet (v : Yaml) (k : String) : Option Yaml :=
  match v with
  | Yaml.ymap kvs => (kvs.find? (fun kv => kv.1 == k)).map Prod.snd
  | _ => none

/-- Tokens of the serialized YAML document stream. -/
inductive Tok where
  | tstr (s : String)
  | tint (n : ℤ)
  | tnum (q : ℚ)
  | tbool (b : Bool)
  | tnull
  | topenArr
  | tcloseArr
  | topenMap
  | tcloseMap

mutual

/-- Modelled from the spec: the YAML writer (yaml.dump of cell 18) is external
library code absent from the repository; it is modelled as a faithful
structure-preserving flattening of a YAML document to a token stream. -/
def yamlDump : Yaml → List Tok
  | Yaml.ystr s => [Tok.tstr s]
  | Yaml.yint n => [Tok.tint n]
  | Yaml.ynum q => [Tok.tnum q]
  | Yaml.ybool b => [Tok.tbool b]
  | Yaml.ynull => [Tok.tnull]
  | Yaml.yarr xs => Tok.topenArr :: yamlDumpList xs ++ [Tok.tcloseArr]
  | Yaml.ymap kvs => Tok.topenMap :: yamlDumpMap kvs ++ [Tok.tcloseMap]

def yamlDumpList : List Yaml → List Tok
  | [] => []
  | x :: xs => yamlDump x ++ yamlDumpList xs

def yamlDumpMap : List (String × Yaml) → List Tok
  | [] => []
  | (k, v) :: kvs => Tok.tstr k :: yamlDump v ++ yamlDumpMap kvs

end

mutual

/-- Modelled from the spec: the YAML reader (deserializing the written file)
is external library code absent from the repository; it is modelled as a
fuel-bounded recursive-descent reader of the token stream, returning the
parsed document and the unconsumed remainder. -/
def yamlLoad : ℕ → List Tok → Option (Yaml × List Tok)
  | _, [] => none
  | 0, _ :: _ => none
  | fuel + 1, t :: rest =>
    match t with
    | Tok.tstr s => some (Yaml.ystr s, rest)
    | Tok.tint n => some (Yaml.yint n, rest)
    | Tok.tnum q => some (Yaml.ynum q, rest)
    | Tok.tbool b => some (Yaml.ybool b, rest)
    | Tok.tnull => some (Yaml.ynull, rest)
    | Tok.topenArr =>
      match yamlLoadList fuel rest with
      | some (xs, r) => some (Yaml.yarr xs, r)
      | none => none
    | Tok.topenMap =>
      match yamlLoadMap fuel rest with
      | some (kvs, r) => some (Yaml.ymap kvs, r)
      | none => none
    | _ => none

def yamlLoadList : ℕ → List Tok → Option (List Yaml × List Tok)
  | _, [] => none
  | 0, _ :: _ => none
  | _ + 1, Tok.tcloseArr :: rest => some ([], rest)
  | fuel + 1, t :: rest =>
    match yamlLoad fuel (t :: rest) with
    | some (x, r1) =>
      match yamlLoadList fuel r1 with
      | some (xs, r2) => some (x :: xs, r2)
      | none => none
    | none => none

def yamlLoadMap : ℕ → List Tok → Option (List (String × Yaml) × List Tok)
  | _, [] => none
  | 0, _ :: _ => none
  | _ + 1, Tok.tcloseMap :: rest => some ([], rest)
  | fuel + 1, Tok.tstr k :: rest =>
    match yamlLoad fuel rest with
    | some (v, r1) =>
      match yamlLoadMap fuel r1 with
      | some (kvs, r2) => some ((k, v) :: kvs, r2)
      | none => none
    | none => none
  | _ + 1, _ :: _ => none

end

/-- The search space dict of cell 18, with the four learning-rate values
abstracted:

  learning_rate maps to a dict with _type set to choice and _value to the
  four candidate rates. -/
def search_space (v1 v2 v3 v4 : ℚ) : Yaml :=
  Yaml.ymap [("learning_rate", Yaml.ymap
    [("_type", Yaml.ystr "choice"),
     ("_value", Yaml.yarr [Yaml.ynum v1, Yaml.ynum v2, Yaml.ynum v3, Yaml.ynum v4])])]

/-- The nni_config document of cell 18, keys and order as in the source dict
literal, with the search-space values, trial concurrency and trial budget
(maxTrialNumber) abstracted. -/
def nni_config (v1 v2 v3 v4 : ℚ) (trialConcurrency maxTrialNumber : ℤ) : Yaml :=
  Yaml.ymap
    [("experimentName", Yaml.ystr "Task04_Hippocampus_lr"),
     ("searchSpace", search_space v1 v2 v3 v4),
     ("trialCommand", Yaml.ynull),
     ("trialCodeDirectory", Yaml.ystr "."),
     ("trialGpuNumber", Yaml.yint 1),
     ("trialConcurrency", Yaml.yint trialConcurrency),
     ("maxTrialNumber", Yaml.yint maxTrialNumber),
     ("maxExperimentDuration", Yaml.ystr "1h"),
     ("tuner", Yaml.ymap [("name", Yaml.ystr "GridSearch")]),
     ("trainingService", Yaml.ymap
       [("platform", Yaml.ystr "local"), ("useActiveGpu", Yaml.ybool true)])]

/-- Claim C1: for every positive epoch_count, total_training_images,
images_per_batch and gpu_count, the override calculator produces
num_iterations equal to the floor of epoch_count (clamped to at least 2, per
the calculator's contract) times total_images divided by images_per_batch
divided by gpu_count, num_iterations_per_validation equal to the floor of
num_iterations / 2, and num_warmup_iterations equal to
num_iterations_per_validation; in particular for total_images = 24,
images_per_batch = 2, gpu_count = 1, epoch_count = 2 it yields
num_iterations = 24 and num_iterations_per_validation = 12. -/
theorem claim_C1 (epoch_count total_images images_per_batch gpu_count : ℕ)
    (_he : 0 < epoch_count) (_hn : 0 < total_images)
    (hb : 0 < images_per_batch) (hg : 0 < gpu_count) :
    (∃ p, override_param epoch_count images_per_batch total_images gpu_count =
        Except.ok p ∧
      p.num_iterations =
        ⌊(((max epoch_count 2 : ℕ) : ℚ) * (total_images : ℚ)) /
          (images_per_batch : ℚ) / (gpu_count : ℚ)⌋ ∧
      p.num_iterations_per_validation = ⌊(p.num_iterations : ℚ) / 2⌋ ∧
      p.num_warmup_iterations = p.num_iterations_per_validation) ∧
    (∃ q, override_param 2 2 24 1 = Except.ok q ∧
      q.num_iterations = 24 ∧ q.num_iterations_per_validation = 12 ∧
      q.num_warmup_iterations = 12) := by
  constructor
  · exact ⟨_, override_param_eval epoch_count images_per_batch total_images gpu_count hb hg,
      rfl, rfl, rfl⟩
  · refine ⟨_, override_param_eval 2 2 24 1 (by decide) (by decide), ?_, ?_, ?_⟩ <;>
      norm_num

/-- Witness for C1 at epoch_count = 2, total_images = 24, images_per_batch = 2,
gpu_count = 1. -/
theorem claim_C1_witness :
    ∃ q, override_param 2 2 24 1 = Except.ok q ∧
      q.num_iterations = 24 ∧ q.num_iterations_per_validation = 12 ∧
      q.num_warmup_iterations = 12 :=
  (claim_C1 2 24 2 1 (by decide) (by decide) (by decide) (by decide)).2

/-- Counterexample to C1 as literally stated: at supplied epoch_count = 1
(positive), total_images = 24, images_per_batch = 2, gpu_count = 1, the
calculator yields num_iterations = 24, not
floor(epoch_count × total_images / images_per_batch / gpu_count) = 12,
because the epoch count is clamped to 2 before the formula is applied. -/
theorem claim_C1_counterexample :
    ∃ p, override_param 1 2 24 1 = Except.ok p ∧
      p.num_iterations = 24 ∧
      p.num_iterations ≠ ⌊((1 : ℚ) * (24 : ℚ)) / (2 : ℚ) / (1 : ℚ)⌋ := by
  refine ⟨_, override_param_eval 1 2 24 1 (by decide) (by decide), ?_, ?_⟩ <;>
    norm_num

/-- Claim C4: when gpu_count is zero or images_per_batch is zero, the
override calculator raises an uncaught divide-by-zero error (no bounds
checking is performed before dividing). -/
theorem claim_C4 (max_epochs num_images_per_batch n_data num_gpus : ℕ)
    (h : num_images_per_batch = 0 ∨ num_gpus = 0) :
    override_param max_epochs num_images_per_batch n_data num_gpus =
      Except.error () := by
  rcases h with h | h
  · subst h
    simp [override_param, pyDiv, Except.bind, bind]
  · subst h
    by_cases hb : (num_images_per_batch : ℚ) = 0
    · simp [override_param, pyDiv, hb, Except.bind, bind]
    · simp [override_param, pyDiv, hb, Except.bind, bind]

/-- Witness for C4 at images_per_batch = 0. -/
theorem claim_C4_witness : override_param 2 0 24 1 = Except.error () :=
  claim_C4 2 0 24 1 (Or.inl rfl)

/-- Claim C5: for every caller-supplied epoch count, the epoch count actually
used in the override mapping (num_epochs) and in the iteration formula is
max(supplied, 2). -/
theorem claim_C5 (supplied num_images_per_batch n_data num_gpus : ℕ)
    (hb : 0 < num_images_per_batch) (hg : 0 < num_gpus) :
    ∃ p, override_param supplied num_images_per_batch n_data num_gpus =
        Except.ok p ∧
      p.num_epochs = max supplied 2 ∧
      p.num_iterations =
        ⌊(((max supplied 2 : ℕ) : ℚ) * (n_data : ℚ)) /
          (num_images_per_batch : ℚ) / (num_gpus : ℚ)⌋ :=
  ⟨_, override_param_eval supplied num_images_per_batch n_data num_gpus hb hg,
    rfl, rfl⟩

/-- Witness for C5: a supplied epoch count of 1 is replaced by 2 in the
produced mapping. -/
theorem claim_C5_witness :
    ∃ p, override_param 1 2 24 1 = Except.ok p ∧ p.num_epochs = 2 := by
  obtain ⟨p, hp, he, _⟩ := claim_C5 1 2 24 1 (by decide) (by decide)
  exact ⟨p, hp, by simpa using he⟩

/-- Claim C6: gpu_count resolves to 1 whenever the dataset config contains a
multi-GPU flag that is explicitly false, regardless of the detected
accelerator count; when the flag is absent or true it resolves to the number
of visible accelerators. -/
theorem claim_C6 (multigpu : Option Bool) (device_count : ℕ) :
    (multigpu = some false → num_gpus multigpu device_count = 1) ∧
    (multigpu = none ∨ multigpu = some true →
      num_gpus multigpu device_count = device_count) := by
  constructor
  · intro h
    simp [num_gpus, h]
  · rintro (h | h) <;> simp [num_gpus, h]

/-- Witness for C6: an explicitly false flag forces a single GPU even with 8
visible accelerators. -/
theorem claim_C6_witness : num_gpus (some false) 8 = 1 :=
  (claim_C6 (some false) 8).1 rfl

/-- Claim C2: algorithm selection at index i looks up the i-th entry of the
history sequence and then the i-th key of that entry's name-to-handle
mapping, using the same index for both; selecting an index greater than or
equal to the history length fails with an uncaught index-out-of-range
error. -/
theorem claim_C2 {α : Type} (history : AlgoHistory α) (i : ℕ) :
    (history.length ≤ i → select_algo history i = none) ∧
    (∀ h : i < history.length,
      select_algo history i =
        ((dictKeys (history.get ⟨i, h⟩)).get? i).bind fun algo_name =>
          (dictGet (history.get ⟨i, h⟩) algo_name).bind fun algo =>
            some (algo_name, algo)) := by
  constructor
  · intro h
    simp [select_algo, List.getElem?_eq_none h]
  · intro h
    simp [select_algo, List.getElem?_eq_getElem h]

/-- Witness for C2: selecting index 3 from a one-entry history fails. -/
theorem claim_C2_witness :
    select_algo ([[("segresnet2d", (0 : ℕ))]] : AlgoHistory ℕ) 3 = none :=
  (claim_C2 [[("segresnet2d", (0 : ℕ))]] 3).1 (by decide)

/-- Claim C10: when every history entry maps exactly one algorithm name to
one handle, the double use of the positional index makes selection fail with
an index-out-of-range error on the entry's key list for every index i ≥ 1,
even when the history is longer than i; selection at index 0 succeeds on a
non-empty history. -/
theorem claim_C10 {α : Type} (history : AlgoHistory α) (i : ℕ)
    (hsingle : ∀ d ∈ history, d.length = 1) (hi : 1 ≤ i) :
    select_algo history i = none ∧
    (history ≠ [] → (select_algo history 0).isSome) := by
  constructor
  · rcases hd : history[i]? with _ | d
    · simp [select_algo, hd]
    · have hmem : d ∈ history := List.getElem?_mem hd
      have hlen : (dictKeys d).length = 1 := by
        simp [dictKeys, hsingle d hmem]
      have hnone : (dictKeys d)[i]? = none :=
        List.getElem?_eq_none (by omega)
      simp [select_algo, hd, hnone]
  · intro hne
    match history, hne with
    | d :: rest, _ =>
      have h1 : d.length = 1 := hsingle d (by simp)
      obtain ⟨⟨k, v⟩, hkv⟩ := List.length_eq_one.mp h1
      subst hkv
      simp [select_algo, dictKeys, dictGet, List.find?]

/-- Witness for C10: three singleton entries, index 1 fails although the
history has length 3; index 0 succeeds. -/
theorem claim_C10_witness :
    select_algo ([[("a", (0 : ℕ))], [("b", 1)], [("c", 2)]] : AlgoHistory ℕ) 1 =
        none ∧
      (select_algo ([[("a", (0 : ℕ))], [("b", 1)], [("c", 2)]] : AlgoHistory ℕ)
          0).isSome :=
  ⟨(claim_C10 [[("a", (0 : ℕ))], [("b", 1)], [("c", 2)]] 1 (by decide)
      (by decide)).1,
   (claim_C10 [[("a", (0 : ℕ))], [("b", 1)], [("c", 2)]] 1 (by decide)
      (by decide)).2 (by simp)⟩

/-- Claim C3: the on-disk history fallback is taken exactly when reading the
in-memory generation history raises or yields an empty sequence; a non-empty
in-memory history is used unchanged. -/
theorem claim_C3 {α : Type} (primary : Except Unit (AlgoHistory α))
    (disk : AlgoHistory α) :
    (∀ h, primary = Except.ok h → h ≠ [] → resolve_history primary disk = h) ∧
    (primary = Except.error () → resolve_history primary disk = disk) ∧
    (primary = Except.ok [] → resolve_history primary disk = disk) := by
  refine ⟨?_, ?_, ?_⟩
  · intro h hp hne
    subst hp
    have hpos : 0 < h.length := List.length_pos.mpr hne
    simp [resolve_history, get_history_checked, Except.bind, bind, pure,
      Except.pure, hpos]
  · intro hp
    subst hp
    simp [resolve_history, get_history_checked, Except.bind, bind]
  · intro hp
    subst hp
    simp [resolve_history, get_history_checked, Except.bind, bind]

/-- Witness for C3: a non-empty in-memory history is used unchanged. -/
theorem claim_C3_witness :
    resolve_history (Except.ok ([[("a", (0 : ℕ))]] : AlgoHistory ℕ)) [] =
      [[("a", (0 : ℕ))]] :=
  (claim_C3 (Except.ok [[("a", (0 : ℕ))]]) []).1 _ rfl (by simp)

/-- Claim C7: the data-statistics analyzer is invoked exactly once when the
statistics cache file is absent, and not at all (the step body is skipped)
when the cache file already exists; file presence is the sole input of the
guard. -/
theorem claim_C7 (datastats_file_exists : Bool) :
    ((data_statistics_step datastats_file_exists).count StatsAction.runAnalyzer =
      if datastats_file_exists then 0 else 1) ∧
    data_statistics_step true = [] := by
  cases datastats_file_exists <;> exact ⟨rfl, rfl⟩

/-- Claim C9: dataset provisioning performs no action at all when the
expected local path exists, and performs the download-and-extract step
exactly when it is absent. -/
theorem claim_C9 (dataroot_exists : Bool) :
    dataset_provisioning dataroot_exists =
      if dataroot_exists then [] else [ProvisionAction.downloadAndExtract] := by
  cases dataroot_exists <;> rfl

/-- Claim C8: serializing the HPO config document and deserializing it back
reproduces the document exactly, in particular the search-space mapping, the
trial concurrency and the trial budget (maxTrialNumber) supplied when the
document was built. -/
theorem claim_C8 (v1 v2 v3 v4 : ℚ) (c m : ℤ) :
    ∃ doc,
      yamlLoad 100 (yamlDump (nni_config v1 v2 v3 v4 c m)) = some (doc, []) ∧
      doc = nni_config v1 v2 v3 v4 c m ∧
      yamlGet doc "searchSpace" = some (search_space v1 v2 v3 v4) ∧
      yamlGet doc "trialConcurrency" = some (Yaml.yint c) ∧
      yamlGet doc "maxTrialNumber" = some (Yaml.yint m) := by
  refine ⟨nni_config v1 v2 v3 v4 c m, ?_, rfl, ?_, ?_, ?_⟩
  · simp [nni_config, search_space, yamlDump, yamlDumpList, yamlDumpMap,
      yamlLoad, yamlLoadList, yamlLoadMap]
  · simp [nni_config, search_space, yamlGet, List.find?]
  · simp [nni_config, search_space, yamlGet, List.find?]
  · simp [nni_config, search_space, yamlGet, List.find?]

end HpoNni
